import Mathlib

/-!
Verification development for the Ferrari F1 stream processor
(src/stream-processor/main.py).

The embedding models the core components: the sliding time window
(TimeWindow), the anomaly detector (AnomalyDetector), the pit-stop
strategy calculator (PitStopStrategyCalculator), and the schema check
performed by the ingestion boundary (TelemetryData dataclass
construction inside process_message, wrapped by receive_telemetry).

Modelling conventions:
- Python float arithmetic is idealised over the rationals.
- Timestamps are rational numbers of seconds; the source parses
  ISO-8601 instants into datetime values and only ever subtracts and
  compares them, so a rational time-line is a faithful model of a
  timestamp-ordered stream.
- Python dicts keyed by car id are modelled as association lists with
  insert-or-replace update; the inner position dicts, whose key set is
  fixed to fl, fr, rl, rr, are modelled as four-field structures.
- round(x, 2) is modelled by round-half-to-even on the rationals,
  matching the documented behaviour of Python rounding.
-/

namespace F1

/-- TelemetryData (main.py line 102): the full telemetry snapshot
schema. The three trailing fields are the optional upstream anomaly
tag; like the source they default to absent. -/
structure TelemetryData where
  timestamp : ℚ
  car_id : String
  driver : String
  lap : Int
  speed_kmh : ℚ
  rpm : Int
  gear : Int
  throttle_percent : ℚ
  engine_temp_celsius : ℚ
  brake_pressure_bar : ℚ
  brake_temp_fl_celsius : ℚ
  brake_temp_fr_celsius : ℚ
  brake_temp_rl_celsius : ℚ
  brake_temp_rr_celsius : ℚ
  tire_compound : String
  tire_temp_fl_celsius : ℚ
  tire_temp_fr_celsius : ℚ
  tire_temp_rl_celsius : ℚ
  tire_temp_rr_celsius : ℚ
  tire_pressure_fl_psi : ℚ
  tire_pressure_fr_psi : ℚ
  tire_pressure_rl_psi : ℚ
  tire_pressure_rr_psi : ℚ
  tire_wear_percent : ℚ
  drs_status : String
  ers_power_kw : ℚ
  fuel_remaining_kg : ℚ
  track_temp_celsius : ℚ
  air_temp_celsius : ℚ
  humidity_percent : ℚ
  has_anomaly : Bool := false
  anomaly_type : Option String := none
  anomaly_severity : Option String := none
deriving DecidableEq

/-- AnomalyEvent (main.py line 154). -/
structure AnomalyEvent where
  timestamp : ℚ
  car_id : String
  anomaly_type : String
  severity : String
  value : ℚ
  threshold : ℚ
  duration_seconds : ℚ
  message : String
deriving DecidableEq

/-- PitStopRecommendation (main.py line 167). The source also stores a
wall-clock creation timestamp (datetime.utcnow()); wall-clock time is
outside the model and no claim mentions it, so that field is omitted. -/
structure PitStopRecommendation where
  car_id : String
  lap : Int
  score : ℚ
  tire_wear : ℚ
  avg_speed_loss : ℚ
  brake_degradation : ℚ
  recommendation : String
  urgency : String
deriving DecidableEq

/-- TimeWindow (main.py line 181): fixed-duration sliding window of
(timestamp, value) samples, oldest first. -/
structure TimeWindow where
  duration : ℚ
  data : List (ℚ × ℚ)
deriving DecidableEq

/-- TimeWindow._cleanup (main.py line 193): pop from the left while the
head sample is older than current_time - duration. -/
def TimeWindow.cleanup (w : TimeWindow) (current_time : ℚ) : TimeWindow :=
  { w with data := w.data.dropWhile (fun s => decide (s.1 < current_time - w.duration)) }

/-- TimeWindow.add (main.py line 188): append the sample, then cleanup
anchored at the timestamp just added. -/
def TimeWindow.add (w : TimeWindow) (timestamp value : ℚ) : TimeWindow :=
  TimeWindow.cleanup { w with data := w.data ++ [(timestamp, value)] } timestamp

/-- TimeWindow.all_above_threshold (main.py line 199): False on an empty
window, otherwise whether every retained value strictly exceeds the
threshold. -/
def TimeWindow.all_above_threshold (w : TimeWindow) (threshold : ℚ) : Bool :=
  !w.data.isEmpty && w.data.all (fun s => decide (threshold < s.2))

/-- TimeWindow.get_duration (main.py line 205): time between oldest and
newest retained sample, 0 with fewer than two samples. -/
def TimeWindow.get_duration (w : TimeWindow) : ℚ :=
  if w.data.length < 2 then 0
  else (w.data.getLastD (0, 0)).1 - (w.data.headD (0, 0)).1

/-- TimeWindow.get_average (main.py line 211): mean of retained values,
0 on an empty window. -/
def TimeWindow.get_average (w : TimeWindow) : ℚ :=
  if w.data.isEmpty then 0
  else (w.data.map (fun s => s.2)).sum / (w.data.length : ℚ)

/-- Feeding a sequence of samples through TimeWindow.add, left to
right. -/
def TimeWindow.feed (w : TimeWindow) (samples : List (ℚ × ℚ)) : TimeWindow :=
  samples.foldl (fun acc s => acc.add s.1 s.2) w

/-- AnomalyDetector.BRAKE_TEMP_CRITICAL (main.py line 226). -/
def BRAKE_TEMP_CRITICAL : ℚ := 950

/-- AnomalyDetector.TIRE_TEMP_CRITICAL (main.py line 227). -/
def TIRE_TEMP_CRITICAL : ℚ := 130

/-- AnomalyDetector.DETECTION_WINDOW (main.py line 228). -/
def DETECTION_WINDOW : ℚ := 2

/-- The inner per-car dict of TimeWindows keyed by the fixed position
names fl, fr, rl, rr (main.py line 239). -/
structure PositionWindows where
  fl : TimeWindow
  fr : TimeWindow
  rl : TimeWindow
  rr : TimeWindow
deriving DecidableEq

/-- The fresh set of four windows created for an unseen car id, each
with the detection window duration. -/
def initial_windows : PositionWindows :=
  ⟨⟨DETECTION_WINDOW, []⟩, ⟨DETECTION_WINDOW, []⟩,
   ⟨DETECTION_WINDOW, []⟩, ⟨DETECTION_WINDOW, []⟩⟩

/-- Lookup in an association-list model of a Python dict. -/
def dictFind {α : Type} : List (String × α) → String → Option α
  | [], _ => none
  | (k0, v0) :: rest, k => if k0 = k then some v0 else dictFind rest k

/-- Insert-or-replace in an association-list model of a Python dict. -/
def dictInsert {α : Type} : List (String × α) → String → α → List (String × α)
  | [], k, v => [(k, v)]
  | (k0, v0) :: rest, k, v =>
    if k0 = k then (k, v) :: rest else (k0, v0) :: dictInsert rest k v

/-- AnomalyDetector state (main.py line 230): per-car brake windows,
tire windows and active anomaly lists. -/
structure AnomalyDetector where
  brake_windows : List (String × PositionWindows)
  tire_windows : List (String × PositionWindows)
  active_anomalies : List (String × List AnomalyEvent)
deriving DecidableEq

/-- The freshly constructed detector (main.py line 230): all three
dicts empty. -/
def AnomalyDetector.init : AnomalyDetector := ⟨[], [], []⟩

/-- AnomalyDetector._get_or_create_windows (main.py line 236): lazily
create the windows and active list for an unseen car id. -/
def AnomalyDetector.get_or_create_windows (self : AnomalyDetector) (car_id : String) :
    AnomalyDetector :=
  { brake_windows :=
      if (dictFind self.brake_windows car_id).isSome then self.brake_windows
      else dictInsert self.brake_windows car_id initial_windows,
    tire_windows :=
      if (dictFind self.tire_windows car_id).isSome then self.tire_windows
      else dictInsert self.tire_windows car_id initial_windows,
    active_anomalies :=
      if (dictFind self.active_anomalies car_id).isSome then self.active_anomalies
      else dictInsert self.active_anomalies car_id [] }

/-- Round half to even of a rational, the tie rule of Python round. -/
def roundHalfEven (q : ℚ) : ℤ :=
  if q - ⌊q⌋ < 1/2 then ⌊q⌋
  else if 1/2 < q - ⌊q⌋ then ⌊q⌋ + 1
  else if ⌊q⌋ % 2 = 0 then ⌊q⌋ else ⌊q⌋ + 1

/-- Python round(x, 2). -/
def round2 (q : ℚ) : ℚ := (roundHalfEven (q * 100) : ℚ) / 100

/-- Python format specifier .1f applied to a rational. -/
def fmt1 (q : ℚ) : String :=
  let n := roundHalfEven (q * 10)
  if n < 0 then "-" ++ toString (-n / 10) ++ "." ++ toString (-n % 10)
  else toString (n / 10) ++ "." ++ toString (n % 10)

/-- One iteration of the brake-temps / tire-temps detection loop in
AnomalyDetector.detect (main.py lines 274 and 301): add the sample to
the window for this position, and emit one critical AnomalyEvent when
every retained sample exceeds the threshold and the window spans at
least the detection window duration. label is Frein or Pneu; family is
brake_overheat_ or tire_overheat_. -/
def check_position (window : TimeWindow) (car_id position : String)
    (timestamp temp threshold : ℚ) (label family : String) :
    TimeWindow × List AnomalyEvent :=
  let window := window.add timestamp temp
  if window.all_above_threshold threshold && decide (DETECTION_WINDOW ≤ window.get_duration) then
    (window,
     [{ timestamp := timestamp,
        car_id := car_id,
        anomaly_type := family ++ position,
        severity := "critical",
        value := temp,
        threshold := threshold,
        duration_seconds := window.get_duration,
        message := "🔥 CRITIQUE: " ++ label ++ " " ++ position.toUpper ++
          " en surchauffe (" ++ fmt1 temp ++ "°C > " ++ fmt1 threshold ++
          "°C) pendant " ++ fmt1 window.get_duration ++ "s" }])
  else (window, [])

/-- The body of AnomalyDetector.detect (main.py line 257) as a function
of the record fields the source reads: the parsed timestamp, the car
id, and the eight monitored temperatures. Update the eight windows of
the car in order (brakes fl, fr, rl, rr then tires fl, fr, rl, rr),
collect the emitted events, and, only when at least one event was
emitted, append them to the active list and prune it to events newer
than the record timestamp minus 60 seconds. Returns the updated
detector state together with the events of this call. -/
def detect_core (self : AnomalyDetector) (timestamp : ℚ) (car_id : String)
    (brake_temp_fl brake_temp_fr brake_temp_rl brake_temp_rr
     tire_temp_fl tire_temp_fr tire_temp_rl tire_temp_rr : ℚ) :
    AnomalyDetector × List AnomalyEvent :=
  let self1 := self.get_or_create_windows car_id
  let bw := (dictFind self1.brake_windows car_id).getD initial_windows
  let tw := (dictFind self1.tire_windows car_id).getD initial_windows
  let b_fl := check_position bw.fl car_id "fl" timestamp brake_temp_fl
    BRAKE_TEMP_CRITICAL "Frein" "brake_overheat_"
  let b_fr := check_position bw.fr car_id "fr" timestamp brake_temp_fr
    BRAKE_TEMP_CRITICAL "Frein" "brake_overheat_"
  let b_rl := check_position bw.rl car_id "rl" timestamp brake_temp_rl
    BRAKE_TEMP_CRITICAL "Frein" "brake_overheat_"
  let b_rr := check_position bw.rr car_id "rr" timestamp brake_temp_rr
    BRAKE_TEMP_CRITICAL "Frein" "brake_overheat_"
  let t_fl := check_position tw.fl car_id "fl" timestamp tire_temp_fl
    TIRE_TEMP_CRITICAL "Pneu" "tire_overheat_"
  let t_fr := check_position tw.fr car_id "fr" timestamp tire_temp_fr
    TIRE_TEMP_CRITICAL "Pneu" "tire_overheat_"
  let t_rl := check_position tw.rl car_id "rl" timestamp tire_temp_rl
    TIRE_TEMP_CRITICAL "Pneu" "tire_overheat_"
  let t_rr := check_position tw.rr car_id "rr" timestamp tire_temp_rr
    TIRE_TEMP_CRITICAL "Pneu" "tire_overheat_"
  let anomalies := b_fl.2 ++ b_fr.2 ++ b_rl.2 ++ b_rr.2 ++
    t_fl.2 ++ t_fr.2 ++ t_rl.2 ++ t_rr.2
  let active := (dictFind self1.active_anomalies car_id).getD []
  (⟨dictInsert self1.brake_windows car_id ⟨b_fl.1, b_fr.1, b_rl.1, b_rr.1⟩,
    dictInsert self1.tire_windows car_id ⟨t_fl.1, t_fr.1, t_rl.1, t_rr.1⟩,
    if anomalies.isEmpty then self1.active_anomalies
    else dictInsert self1.active_anomalies car_id
      ((active ++ anomalies).filter (fun a => decide (timestamp - 60 < a.timestamp)))⟩,
   anomalies)

/-- AnomalyDetector.detect (main.py line 257): the record enters the
detector only through its parsed timestamp, its car id and its eight
monitored temperatures, passed to detect_core. -/
def AnomalyDetector.detect (self : AnomalyDetector) (data : TelemetryData) :
    AnomalyDetector × List AnomalyEvent :=
  detect_core self data.timestamp data.car_id
    data.brake_temp_fl_celsius data.brake_temp_fr_celsius
    data.brake_temp_rl_celsius data.brake_temp_rr_celsius
    data.tire_temp_fl_celsius data.tire_temp_fr_celsius
    data.tire_temp_rl_celsius data.tire_temp_rr_celsius

/-- AnomalyDetector.get_active_count (main.py line 332): total length of
the active anomaly lists over all cars. -/
def AnomalyDetector.get_active_count (self : AnomalyDetector) : ℕ :=
  (self.active_anomalies.map (fun p => p.2.length)).sum

/-- PitStopStrategyCalculator state (main.py line 344): bounded per-car
history of recent records. -/
structure PitStopStrategyCalculator where
  history : List (String × List TelemetryData)
deriving DecidableEq

/-- PitStopStrategyCalculator.max_history (main.py line 346). -/
def max_history : ℕ := 100

/-- The freshly constructed calculator: empty history dict. -/
def PitStopStrategyCalculator.init : PitStopStrategyCalculator := ⟨[]⟩

/-- Append to a deque with maxlen semantics: evict from the left once
the bound is exceeded. -/
def dequeAppend {α : Type} (maxlen : ℕ) (xs : List α) (x : α) : List α :=
  let ys := xs ++ [x]
  if maxlen < ys.length then ys.drop (ys.length - maxlen) else ys

/-- PitStopStrategyCalculator._calculate_speed_loss (main.py line 409),
as a function of the car history list: 0 with fewer than 10 records;
0 when the mean speed of the first 10 records is zero; otherwise the
percentage drop from the mean of the first 10 to the mean of the last
10, amplified by 5 and clamped to [0, 100]. -/
def calculate_speed_loss (history : List TelemetryData) : ℚ :=
  if history.length < 10 then 0
  else
    let early_speeds := (history.take 10).map (fun d => d.speed_kmh)
    let recent_speeds := (history.drop (history.length - 10)).map (fun d => d.speed_kmh)
    let avg_early := early_speeds.sum / (early_speeds.length : ℚ)
    let avg_recent := recent_speeds.sum / (recent_speeds.length : ℚ)
    if avg_early = 0 then 0
    else
      let loss_percent := ((avg_early - avg_recent) / avg_early) * 100
      max 0 (min 100 (loss_percent * 5))

/-- PitStopStrategyCalculator._calculate_brake_degradation (main.py
line 431): mean of the four brake temperatures mapped linearly from
[250, 950] to [0, 100] and clamped to [0, 100]. -/
def calculate_brake_degradation (data : TelemetryData) : ℚ :=
  let avg_brake_temp := (data.brake_temp_fl_celsius + data.brake_temp_fr_celsius +
    data.brake_temp_rl_celsius + data.brake_temp_rr_celsius) / 4
  let temp_min : ℚ := 250
  let temp_max : ℚ := 950
  let score := ((avg_brake_temp - temp_min) / (temp_max - temp_min)) * 100
  max 0 (min 100 score)

/-- The anomaly factor of calculate_score (main.py line 371): 25 points
per event of this call, capped at 100. -/
def anomaly_score_of (anomalies : List AnomalyEvent) : ℚ :=
  min ((anomalies.length : ℚ) * 25) 100

/-- The weighted total of calculate_score (main.py line 376), before
rounding, as a function of the car history after the append. -/
def total_score_of (hist : List TelemetryData) (data : TelemetryData)
    (anomalies : List AnomalyEvent) : ℚ :=
  data.tire_wear_percent * 0.40 +
  calculate_speed_loss hist * 0.30 +
  calculate_brake_degradation data * 0.20 +
  anomaly_score_of anomalies * 0.10

/-- The recommendation built by calculate_score (main.py lines 370 to
407) as a function of the values it is built from: the car id, the lap,
and the three factor scores already computed (tire wear is the record
field, speed loss comes from the appended history, brake degradation
from the record). Combine the four factors with weights 0.40 / 0.30 /
0.20 / 0.10, pick the urgency tier and recommendation string by fixed
thresholds on the unrounded total, and report every figure rounded to 2
decimals. -/
def score_result (car_id : String) (lap : Int)
    (tire_wear_score speed_loss_score brake_degradation_score : ℚ)
    (anomalies : List AnomalyEvent) : PitStopRecommendation :=
  let total_score :=
    tire_wear_score * 0.40 +
    speed_loss_score * 0.30 +
    brake_degradation_score * 0.20 +
    anomaly_score_of anomalies * 0.10
  let ur :=
    if 90 ≤ total_score then ("critical", "PIT-STOP IMMÉDIAT REQUIS!")
    else if 75 ≤ total_score then ("high", "Pit-stop fortement recommandé au prochain tour")
    else if 50 ≤ total_score then ("medium", "Pit-stop recommandé dans les 3-5 prochains tours")
    else ("low", "Continuer, surveillance normale")
  { car_id := car_id,
    lap := lap,
    score := round2 total_score,
    tire_wear := round2 tire_wear_score,
    avg_speed_loss := round2 speed_loss_score,
    brake_degradation := round2 brake_degradation_score,
    recommendation := ur.2,
    urgency := ur.1 }

/-- PitStopStrategyCalculator.calculate_score (main.py line 348):
append the record to the car history (bounded at 100) and build the
recommendation from the tire wear of the record, the speed loss of the
appended history, the brake degradation of the record and the events of
this call. -/
def PitStopStrategyCalculator.calculate_score (self : PitStopStrategyCalculator)
    (data : TelemetryData) (anomalies : List AnomalyEvent) :
    PitStopStrategyCalculator × PitStopRecommendation :=
  let car_id := data.car_id
  let hist := dequeAppend max_history ((dictFind self.history car_id).getD []) data
  (⟨dictInsert self.history car_id hist⟩,
   score_result car_id data.lap data.tire_wear_percent
     (calculate_speed_loss hist) (calculate_brake_degradation data) anomalies)

/-- A dynamic Python value as it arrives in the JSON body of
POST /telemetry. -/
inductive PyVal where
  | int : Int → PyVal
  | float : ℚ → PyVal
  | str : String → PyVal
  | bool : Bool → PyVal
  | none : PyVal
deriving DecidableEq

/-- The dataclass fields of TelemetryData without a default value
(main.py lines 105 to 146), in declaration order. -/
def required_fields : List String :=
  ["timestamp", "car_id", "driver", "lap",
   "speed_kmh", "rpm", "gear", "throttle_percent",
   "engine_temp_celsius",
   "brake_pressure_bar", "brake_temp_fl_celsius", "brake_temp_fr_celsius",
   "brake_temp_rl_celsius", "brake_temp_rr_celsius",
   "tire_compound", "tire_temp_fl_celsius", "tire_temp_fr_celsius",
   "tire_temp_rl_celsius", "tire_temp_rr_celsius",
   "tire_pressure_fl_psi", "tire_pressure_fr_psi", "tire_pressure_rl_psi",
   "tire_pressure_rr_psi", "tire_wear_percent",
   "drs_status", "ers_power_kw", "fuel_remaining_kg",
   "track_temp_celsius", "air_temp_celsius", "humidity_percent"]

/-- The dataclass fields with a default (main.py lines 149 to 151). -/
def optional_fields : List String :=
  ["has_anomaly", "anomaly_type", "anomaly_severity"]

/-- Every keyword accepted by the TelemetryData constructor. -/
def all_fields : List String := required_fields ++ optional_fields

/-- Success of TelemetryData(**data) inside process_message (main.py
line 473): the dataclass constructor raises TypeError exactly when a
required keyword is missing or an unexpected keyword is present; the
type annotations of the fields are not enforced at construction, so the
values play no role. -/
def construct_ok (data : List (String × PyVal)) : Bool :=
  required_fields.all (fun f => (data.map Prod.fst).contains f) &&
  (data.map Prod.fst).all (fun k => all_fields.contains k)

/-- Whether the value supplied for a field matches the type annotation
of that field in the TelemetryData dataclass. -/
def field_type_ok : String → PyVal → Bool
  | "timestamp", PyVal.str _ => true
  | "car_id", PyVal.str _ => true
  | "driver", PyVal.str _ => true
  | "lap", PyVal.int _ => true
  | "speed_kmh", PyVal.float _ => true
  | "rpm", PyVal.int _ => true
  | "gear", PyVal.int _ => true
  | "throttle_percent", PyVal.float _ => true
  | "engine_temp_celsius", PyVal.float _ => true
  | "brake_pressure_bar", PyVal.float _ => true
  | "brake_temp_fl_celsius", PyVal.float _ => true
  | "brake_temp_fr_celsius", PyVal.float _ => true
  | "brake_temp_rl_celsius", PyVal.float _ => true
  | "brake_temp_rr_celsius", PyVal.float _ => true
  | "tire_compound", PyVal.str _ => true
  | "tire_temp_fl_celsius", PyVal.float _ => true
  | "tire_temp_fr_celsius", PyVal.float _ => true
  | "tire_temp_rl_celsius", PyVal.float _ => true
  | "tire_temp_rr_celsius", PyVal.float _ => true
  | "tire_pressure_fl_psi", PyVal.float _ => true
  | "tire_pressure_fr_psi", PyVal.float _ => true
  | "tire_pressure_rl_psi", PyVal.float _ => true
  | "tire_pressure_rr_psi", PyVal.float _ => true
  | "tire_wear_percent", PyVal.float _ => true
  | "drs_status", PyVal.str _ => true
  | "ers_power_kw", PyVal.float _ => true
  | "fuel_remaining_kg", PyVal.float _ => true
  | "track_temp_celsius", PyVal.float _ => true
  | "air_temp_celsius", PyVal.float _ => true
  | "humidity_percent", PyVal.float _ => true
  | "has_anomaly", PyVal.bool _ => true
  | "anomaly_type", PyVal.str _ => true
  | "anomaly_type", PyVal.none => true
  | "anomaly_severity", PyVal.str _ => true
  | "anomaly_severity", PyVal.none => true
  | _, _ => false

/-- Whether every supplied field is well typed for its annotation. -/
def well_typed (data : List (String × PyVal)) : Bool :=
  data.all (fun kv => field_type_ok kv.1 kv.2)

/-- Whether a call on POST /telemetry reaches the AnomalyDetector and
PitStopStrategyCalculator core: process_message (main.py line 467)
constructs the TelemetryData record first and only then calls detect,
so the core is reached exactly when construction succeeds. -/
def reaches_core (data : List (String × PyVal)) : Bool := construct_ok data

/-- The reply of the ingestion endpoint as far as the schema boundary
is concerned. -/
inductive HttpReply where
  | accepted
  | badRequest
deriving DecidableEq

/-- receive_telemetry (main.py line 584): any exception raised by
process_message is surfaced as HTTP 400. A record that fails dataclass
construction raises TypeError before the core runs, so it is answered
with 400; a record that passes construction is handed to the core
(accepted stands for the rest of the pipeline, whose outcome is beyond
the schema boundary modelled here). -/
def receive_telemetry (data : List (String × PyVal)) : HttpReply :=
  if construct_ok data then HttpReply.accepted else HttpReply.badRequest

/-- A concrete, nominal telemetry record used by witnesses and
counterexamples; scenarios override the fields they care about. -/
def baseRecord : TelemetryData where
  timestamp := 0
  car_id := "SF-23"
  driver := "Leclerc"
  lap := 10
  speed_kmh := 300
  rpm := 11000
  gear := 7
  throttle_percent := 80
  engine_temp_celsius := 105
  brake_pressure_bar := 5
  brake_temp_fl_celsius := 400
  brake_temp_fr_celsius := 400
  brake_temp_rl_celsius := 400
  brake_temp_rr_celsius := 400
  tire_compound := "soft"
  tire_temp_fl_celsius := 100
  tire_temp_fr_celsius := 100
  tire_temp_rl_celsius := 100
  tire_temp_rr_celsius := 100
  tire_pressure_fl_psi := 23
  tire_pressure_fr_psi := 23
  tire_pressure_rl_psi := 23
  tire_pressure_rr_psi := 23
  tire_wear_percent := 50
  drs_status := "closed"
  ers_power_kw := 120
  fuel_remaining_kg := 60
  track_temp_celsius := 35
  air_temp_celsius := 25
  humidity_percent := 40

/-- The mean speed of the first 10 history records, exactly as the
early average is formed inside _calculate_speed_loss. -/
def early_average (history : List TelemetryData) : ℚ :=
  ((history.take 10).map (fun d => d.speed_kmh)).sum /
    (((history.take 10).map (fun d => d.speed_kmh)).length : ℚ)

/-- The mean speed of the last 10 history records, exactly as the
recent average is formed inside _calculate_speed_loss. -/
def recent_average (history : List TelemetryData) : ℚ :=
  ((history.drop (history.length - 10)).map (fun d => d.speed_kmh)).sum /
    (((history.drop (history.length - 10)).map (fun d => d.speed_kmh)).length : ℚ)

/-- A 10-record history whose speeds are all zero: the early average is
zero and the speed-loss factor short-circuits to 0. -/
def zero_speed_history : List TelemetryData :=
  List.replicate 10 { baseRecord with speed_kmh := 0 }

/-- Claim-side brake degradation factor, written from the claim text:
mean of the four brake temperatures linearly mapped from [250, 950] to
[0, 100] and clamped to [0, 100]. -/
def spec_brake_degradation (data : TelemetryData) : ℚ :=
  max 0 (min 100 (((data.brake_temp_fl_celsius + data.brake_temp_fr_celsius +
    data.brake_temp_rl_celsius + data.brake_temp_rr_celsius) / 4 - 250) / (950 - 250) * 100))

/-- Claim-side composite score, written from the claim text:
0.40 tire wear + 0.30 speed loss + 0.20 brake degradation +
0.10 min(100, 25 n), rounded to 2 decimals. -/
def spec_composite_score (data : TelemetryData) (hist : List TelemetryData) (n : ℕ) : ℚ :=
  round2 (0.40 * data.tire_wear_percent + 0.30 * calculate_speed_loss hist +
    0.20 * spec_brake_degradation data + 0.10 * min 100 (25 * (n : ℚ)))

/-- Replacing the upstream anomaly tag of a record: the three
informational fields the core is not supposed to read. -/
def set_anomaly_tag (data : TelemetryData) (h : Bool) (t s : Option String) : TelemetryData :=
  { data with has_anomaly := h, anomaly_type := t, anomaly_severity := s }

/-- The car history as it stands inside calculate_score after the
append of the current record. -/
def hist_of (scorer : PitStopStrategyCalculator) (data : TelemetryData) :
    List TelemetryData :=
  dequeAppend max_history ((dictFind scorer.history data.car_id).getD []) data

/-- A 19-record pre-call history: ten records at 300 km/h followed by
nine at 200 km/h, so that with the current record the speed-loss factor
saturates at 100. -/
def c4_history : List TelemetryData :=
  List.replicate 10 baseRecord ++ List.replicate 9 { baseRecord with speed_kmh := 200 }

/-- A record engineered so the unrounded total is 89.996: tire wear 100
(40 points), speed loss 100 (30 points), brake temperatures 599.86
giving brake degradation 49.98 (9.996 points). -/
def c4_record : TelemetryData :=
  { baseRecord with
    speed_kmh := 200
    tire_wear_percent := 100
    brake_temp_fl_celsius := 599.86
    brake_temp_fr_celsius := 599.86
    brake_temp_rl_celsius := 599.86
    brake_temp_rr_celsius := 599.86 }

/-- Scorer state holding the pre-call history for the car. -/
def c4_scorer : PitStopStrategyCalculator := ⟨[("SF-23", c4_history)]⟩

/-- Four events of this call, giving the full 10 anomaly points. -/
def c4_events : List AnomalyEvent :=
  List.replicate 4 ⟨0, "SF-23", "brake_overheat_fl", "critical", 960, 950, 2, "event"⟩

/-- A record scoring the full 100 points: tire wear 100, speed loss
100, brake temperatures at 950, four events. -/
def c4crit_record : TelemetryData :=
  { baseRecord with
    speed_kmh := 200
    tire_wear_percent := 100
    brake_temp_fl_celsius := 950
    brake_temp_fr_celsius := 950
    brake_temp_rl_celsius := 950
    brake_temp_rr_celsius := 950 }

/-- A record whose front-left brake is critically hot at time t. -/
def hotRecord (t : ℚ) : TelemetryData :=
  { baseRecord with
    timestamp := t
    brake_temp_fl_celsius := 960 }

/-- A nominal record at time t (no temperature above any threshold). -/
def coolRecord (t : ℚ) : TelemetryData :=
  { baseRecord with timestamp := t }

/-- Detector state after two hot records at t = 0 and t = 1: windows
loaded, no event yet. -/
def c5_state2 : AnomalyDetector :=
  ((AnomalyDetector.init.detect (hotRecord 0)).1.detect (hotRecord 1)).1

/-- Detector state after the third hot record at t = 2, which emits the
brake-overheat event carrying timestamp 2 into the active list. -/
def c5_state3 : AnomalyDetector :=
  (c5_state2.detect (hotRecord 2)).1

/-- The detect call for the cool record at t = 100 on that state. -/
def c5_final : AnomalyDetector × List AnomalyEvent :=
  c5_state3.detect (coolRecord 100)

/-- Every AnomalyDetector whose stored windows all carry nonnegative
durations; it holds for the fresh detector and is preserved by detect,
whose windows are all created with the 2-second detection duration. -/
def AnomalyDetector.WF (self : AnomalyDetector) : Prop :=
  (∀ p ∈ self.brake_windows, 0 ≤ p.2.fl.duration ∧ 0 ≤ p.2.fr.duration ∧
    0 ≤ p.2.rl.duration ∧ 0 ≤ p.2.rr.duration) ∧
  (∀ p ∈ self.tire_windows, 0 ≤ p.2.fl.duration ∧ 0 ≤ p.2.fr.duration ∧
    0 ≤ p.2.rl.duration ∧ 0 ≤ p.2.rr.duration)

/-- A fully well-formed inbound JSON record: every required field
present with a value of its annotated type, no extras. -/
def sample_record : List (String × PyVal) :=
  [("timestamp", PyVal.str "2024-05-26T14:30:00+00:00"),
   ("car_id", PyVal.str "SF-23"),
   ("driver", PyVal.str "Leclerc"),
   ("lap", PyVal.int 10),
   ("speed_kmh", PyVal.float 300),
   ("rpm", PyVal.int 11000),
   ("gear", PyVal.int 7),
   ("throttle_percent", PyVal.float 80),
   ("engine_temp_celsius", PyVal.float 105),
   ("brake_pressure_bar", PyVal.float 5),
   ("brake_temp_fl_celsius", PyVal.float 400),
   ("brake_temp_fr_celsius", PyVal.float 400),
   ("brake_temp_rl_celsius", PyVal.float 400),
   ("brake_temp_rr_celsius", PyVal.float 400),
   ("tire_compound", PyVal.str "soft"),
   ("tire_temp_fl_celsius", PyVal.float 100),
   ("tire_temp_fr_celsius", PyVal.float 100),
   ("tire_temp_rl_celsius", PyVal.float 100),
   ("tire_temp_rr_celsius", PyVal.float 100),
   ("tire_pressure_fl_psi", PyVal.float 23),
   ("tire_pressure_fr_psi", PyVal.float 23),
   ("tire_pressure_rl_psi", PyVal.float 23),
   ("tire_pressure_rr_psi", PyVal.float 23),
   ("tire_wear_percent", PyVal.float 50),
   ("drs_status", PyVal.str "closed"),
   ("ers_power_kw", PyVal.float 120),
   ("fuel_remaining_kg", PyVal.float 60),
   ("track_temp_celsius", PyVal.float 35),
   ("air_temp_celsius", PyVal.float 25),
   ("humidity_percent", PyVal.float 40)]

/-- The same record with a mistyped field: speed_kmh bound to a
string. -/
def mistyped_record : List (String × PyVal) :=
  sample_record.map (fun kv => if kv.1 = "speed_kmh" then (kv.1, PyVal.str "fast") else kv)

/-- The same record with a required field missing entirely. -/
def missing_record : List (String × PyVal) :=
  sample_record.filter (fun kv => decide (kv.1 ≠ "speed_kmh"))

/-- A record at time t with the given four brake temperatures and all
other monitored temperatures at nominal values below their
thresholds. -/
def debounce_record (t bfl bfr brl brr : ℚ) : TelemetryData :=
  { baseRecord with
    timestamp := t
    brake_temp_fl_celsius := bfl
    brake_temp_fr_celsius := bfr
    brake_temp_rl_celsius := brl
    brake_temp_rr_celsius := brr }

/-- The three event lists produced by three consecutive detect calls
on a fresh detector. -/
def debounce_run (r0 r1 r2 : TelemetryData) :
    List AnomalyEvent × List AnomalyEvent × List AnomalyEvent :=
  ((AnomalyDetector.init.detect r0).2,
   ((AnomalyDetector.init.detect r0).1.detect r1).2,
   (((AnomalyDetector.init.detect r0).1.detect r1).1.detect r2).2)

/-- Detector state after one debounce record at time t: every window
holds its first sample. -/
def c1_state1 (t b1 b2 b3 b4 : ℚ) : AnomalyDetector :=
  ⟨[("SF-23", ⟨⟨2, [(t, b1)]⟩, ⟨2, [(t, b2)]⟩, ⟨2, [(t, b3)]⟩, ⟨2, [(t, b4)]⟩⟩)],
   [("SF-23", ⟨⟨2, [(t, 100)]⟩, ⟨2, [(t, 100)]⟩, ⟨2, [(t, 100)]⟩, ⟨2, [(t, 100)]⟩⟩)],
   [("SF-23", [])]⟩

/-- Detector state after the second debounce record at time t + 1:
every window holds two samples spanning one second. -/
def c1_state2 (t b1 b2 b3 b4 : ℚ) : AnomalyDetector :=
  ⟨[("SF-23", ⟨⟨2, [(t, b1), (t + 1, b1)]⟩, ⟨2, [(t, b2), (t + 1, b2)]⟩,
     ⟨2, [(t, b3), (t + 1, b3)]⟩, ⟨2, [(t, b4), (t + 1, b4)]⟩⟩)],
   [("SF-23", ⟨⟨2, [(t, 100), (t + 1, 100)]⟩, ⟨2, [(t, 100), (t + 1, 100)]⟩,
     ⟨2, [(t, 100), (t + 1, 100)]⟩, ⟨2, [(t, 100), (t + 1, 100)]⟩⟩)],
   [("SF-23", [])]⟩

/-- Definitional characterization of the speed-loss factor in terms of
the early and recent averages. -/
theorem calculate_speed_loss_eq (history : List TelemetryData) :
    calculate_speed_loss history =
      if history.length < 10 then 0
      else if early_average history = 0 then 0
      else max 0 (min 100 ((early_average history - recent_average history) /
        early_average history * 100 * 5)) := rfl

/-- Claim C6: the speed-loss factor is a total function of the history:
0 when the history holds fewer than 10 records, 0 (with no division
error) when the mean speed of the first 10 records is zero, and
otherwise the percentage drop amplified by 5 and clamped to [0, 100]. -/
theorem speed_loss_total_and_fail_neutral (history : List TelemetryData) :
    (history.length < 10 → calculate_speed_loss history = 0) ∧
    (10 ≤ history.length → early_average history = 0 → calculate_speed_loss history = 0) ∧
    (10 ≤ history.length → early_average history ≠ 0 →
      calculate_speed_loss history =
        max 0 (min 100 ((early_average history - recent_average history) /
          early_average history * 100 * 5))) := by
  refine ⟨fun h => ?_, fun h hz => ?_, fun h hz => ?_⟩
  · rw [calculate_speed_loss_eq, if_pos h]
  · rw [calculate_speed_loss_eq, if_neg (by omega), if_pos hz]
  · rw [calculate_speed_loss_eq, if_neg (by omega), if_neg hz]

/-- Witness for C6 at a concrete input: a 10-record history with zero
mean early speed is accepted and yields 0. -/
theorem speed_loss_witness :
    (10 ≤ zero_speed_history.length ∧ early_average zero_speed_history = 0) ∧
    calculate_speed_loss zero_speed_history = 0 :=
  ⟨⟨by norm_num [zero_speed_history], by norm_num [early_average, zero_speed_history]⟩,
   (speed_loss_total_and_fail_neutral zero_speed_history).2.1
     (by norm_num [zero_speed_history]) (by norm_num [early_average, zero_speed_history])⟩

/-- Claim C3: the score reported by calculate_score equals the
claim-side composite formula, evaluated on the history as it stands
after the current record is appended and on the number of events of
this call. -/
theorem composite_score_formula (self : PitStopStrategyCalculator)
    (data : TelemetryData) (anomalies : List AnomalyEvent) :
    ((self.calculate_score data anomalies).2).score =
      spec_composite_score data
        (dequeAppend max_history ((dictFind self.history data.car_id).getD []) data)
        anomalies.length := by
  simp only [PitStopStrategyCalculator.calculate_score, score_result, spec_composite_score]
  congr 1
  have hmin : min ((anomalies.length : ℚ) * 25) 100 = min 100 (25 * (anomalies.length : ℚ)) := by
    rw [mul_comm, min_comm]
  have hbd : calculate_brake_degradation data = spec_brake_degradation data := rfl
  simp only [anomaly_score_of, hmin, hbd]
  ring

/-- Mapping the speed projection commutes with the bounded history
append, and only the speed of the appended record matters. -/
theorem dequeAppend_map_speed (m : ℕ) (l : List TelemetryData) (x y : TelemetryData)
    (h : x.speed_kmh = y.speed_kmh) :
    (dequeAppend m l x).map (fun d => d.speed_kmh) =
      (dequeAppend m l y).map (fun d => d.speed_kmh) := by
  by_cases hm : m < l.length + 1 <;>
    simp [dequeAppend, hm, List.map_append, List.map_drop, h]

/-- The speed-loss factor depends on the history only through the
speed projection of its records. -/
theorem calculate_speed_loss_congr (l₁ l₂ : List TelemetryData)
    (h : l₁.map (fun d => d.speed_kmh) = l₂.map (fun d => d.speed_kmh)) :
    calculate_speed_loss l₁ = calculate_speed_loss l₂ := by
  have hlen : l₁.length = l₂.length := by
    simpa using congrArg List.length h
  have he : (l₁.take 10).map (fun d => d.speed_kmh) =
      (l₂.take 10).map (fun d => d.speed_kmh) := by
    rw [List.map_take, List.map_take, h]
  have hr : (l₁.drop (l₂.length - 10)).map (fun d => d.speed_kmh) =
      (l₂.drop (l₂.length - 10)).map (fun d => d.speed_kmh) := by
    rw [List.map_drop, List.map_drop, h]
  rw [calculate_speed_loss, calculate_speed_loss, hlen]
  rw [he, hr]

/-- Claim C9: the upstream anomaly tag does not interfere with the
core. From identical detector and scorer states, a record and the same
record with any other tag yield the same detect result and the same
recommendation (score, urgency, recommendation text, sub-scores). -/
theorem upstream_tag_noninterference (det : AnomalyDetector)
    (scorer : PitStopStrategyCalculator) (data : TelemetryData)
    (anomalies : List AnomalyEvent) (h : Bool) (t s : Option String) :
    det.detect (set_anomaly_tag data h t s) = det.detect data ∧
    (scorer.calculate_score (set_anomaly_tag data h t s) anomalies).2 =
      (scorer.calculate_score data anomalies).2 := by
  constructor
  · simp only [AnomalyDetector.detect, set_anomaly_tag]
  · have key : calculate_speed_loss
        (dequeAppend max_history ((dictFind scorer.history data.car_id).getD [])
          (set_anomaly_tag data h t s)) =
        calculate_speed_loss
          (dequeAppend max_history ((dictFind scorer.history data.car_id).getD []) data) :=
      calculate_speed_loss_congr _ _ (dequeAppend_map_speed _ _ _ _ rfl)
    have kb : calculate_brake_degradation (set_anomaly_tag data h t s) =
        calculate_brake_degradation data := rfl
    simp only [set_anomaly_tag] at key kb
    simp only [PitStopStrategyCalculator.calculate_score, set_anomaly_tag]
    rw [key, kb]

/-- Appending on the right preserves the suffix relation. -/
theorem isSuffix_append_same {α : Type} {l₁ l₂ : List α} (h : l₁ <:+ l₂) (l₃ : List α) :
    l₁ ++ l₃ <:+ l₂ ++ l₃ := by
  rcases h with ⟨p, rfl⟩
  exact ⟨p, by rw [List.append_assoc]⟩

/-- TimeWindow.add keeps the window duration. -/
theorem add_duration (w : TimeWindow) (t v : ℚ) : (w.add t v).duration = w.duration := rfl

/-- TimeWindow.feed keeps the window duration. -/
theorem feed_duration (samples : List (ℚ × ℚ)) (w : TimeWindow) :
    (w.feed samples).duration = w.duration := by
  induction samples generalizing w with
  | nil => rfl
  | cons x xs ih => simpa [TimeWindow.feed] using ih (w.add x.1 x.2)

/-- The samples retained after a feed form a suffix of the original
window contents followed by the fed samples: add only ever appends on
the right and prunes on the left. -/
theorem feed_data_suffix (samples : List (ℚ × ℚ)) (w : TimeWindow) :
    (w.feed samples).data <:+ w.data ++ samples := by
  induction samples generalizing w with
  | nil => exact ⟨[], by simp [TimeWindow.feed]⟩
  | cons x xs ih =>
    have h1 : (w.add x.1 x.2).data <:+ w.data ++ [x] := by
      simpa [TimeWindow.add, TimeWindow.cleanup] using
        List.dropWhile_suffix (l := w.data ++ [x]) (fun s => decide (s.1 < x.1 - w.duration))
    have h2 : ((w.add x.1 x.2).feed xs).data <:+ (w.add x.1 x.2).data ++ xs := ih _
    have h3 : (w.add x.1 x.2).data ++ xs <:+ (w.data ++ [x]) ++ xs :=
      isSuffix_append_same h1 xs
    have h4 : (w.feed (x :: xs)).data = ((w.add x.1 x.2).feed xs).data := rfl
    rw [h4]
    exact h2.trans (by simpa [List.append_assoc] using h3)

/-- Every sample surviving a dropWhile below a cutoff over a
timestamp-sorted list is at or after the cutoff. -/
theorem mem_dropWhile_cutoff {c : ℚ} {l : List (ℚ × ℚ)}
    (hs : l.Pairwise (fun a b => a.1 ≤ b.1)) :
    ∀ s ∈ l.dropWhile (fun s => decide (s.1 < c)), c ≤ s.1 := by
  induction l with
  | nil => intro s hsm; simp [List.dropWhile] at hsm
  | cons a l ih =>
    intro s hsm
    rcases List.pairwise_cons.mp hs with ⟨ha, hl⟩
    rw [List.dropWhile_cons] at hsm
    split at hsm
    · exact ih hl s hsm
    · rename_i hdec
      have hc : ¬ a.1 < c := by simpa using hdec
      rcases List.mem_cons.mp hsm with rfl | hmem
      · exact le_of_not_lt hc
      · exact le_trans (le_of_not_lt hc) (ha s hmem)

/-- Claim C2, amended: for an input sequence with monotone timestamps,
after each add every retained sample timestamp is at least the latest
sample timestamp minus the window duration. The statement covers every
add of a run because every prefix of a monotone sequence is again
monotone. -/
theorem sliding_window_retention (dur : ℚ) (zs : List (ℚ × ℚ)) (t v : ℚ)
    (hmono : (zs ++ [(t, v)]).Pairwise (fun a b => a.1 ≤ b.1)) :
    ∀ s ∈ (TimeWindow.feed ⟨dur, []⟩ (zs ++ [(t, v)])).data, t - dur ≤ s.1 := by
  intro s hs
  have hfeed : TimeWindow.feed ⟨dur, []⟩ (zs ++ [(t, v)]) =
      (TimeWindow.feed ⟨dur, []⟩ zs).add t v := by
    simp [TimeWindow.feed, List.foldl_append]
  rw [hfeed] at hs
  have hWdur : (TimeWindow.feed ⟨dur, []⟩ zs).duration = dur := feed_duration zs _
  have hWsub : (TimeWindow.feed ⟨dur, []⟩ zs).data <:+ zs := by
    simpa using feed_data_suffix zs ⟨dur, []⟩
  have hsorted : ((TimeWindow.feed ⟨dur, []⟩ zs).data ++ [(t, v)]).Pairwise
      (fun a b => a.1 ≤ b.1) :=
    List.Pairwise.sublist (hWsub.sublist.append_right [(t, v)]) hmono
  have hdata : ((TimeWindow.feed ⟨dur, []⟩ zs).add t v).data =
      ((TimeWindow.feed ⟨dur, []⟩ zs).data ++ [(t, v)]).dropWhile
        (fun s => decide (s.1 < t - dur)) := by
    simp [TimeWindow.add, TimeWindow.cleanup, hWdur]
  rw [hdata] at hs
  exact mem_dropWhile_cutoff hsorted s hs

/-- Witness for the amended C2 at a concrete run: feeding the monotone
sequence (0,5), (1,6), (3,7) into a fresh 2-second window, every
retained sample is within 2 seconds of the latest timestamp 3. -/
theorem sliding_window_retention_witness :
    (([((0 : ℚ), (5 : ℚ)), (1, 6)] ++ [((3 : ℚ), (7 : ℚ))]).Pairwise
      (fun a b => a.1 ≤ b.1)) ∧
    ∀ s ∈ (TimeWindow.feed ⟨2, []⟩
      ([((0 : ℚ), (5 : ℚ)), (1, 6)] ++ [((3 : ℚ), (7 : ℚ))])).data, 3 - 2 ≤ s.1 :=
  ⟨by norm_num [List.pairwise_cons],
   sliding_window_retention 2 [(0, 5), (1, 6)] 3 7 (by norm_num [List.pairwise_cons])⟩

/-- Claim C2 as stated is false for out-of-order input: after feeding
(10,0), (1,0), (5,0) into a fresh 2-second window, the sample with
timestamp 1 is still retained although the most recent sample has
timestamp 5 and the window spans 2 seconds, so the oldest retained
timestamp is below (latest - duration). -/
theorem sliding_window_retention_counterexample :
    ((1 : ℚ), (0 : ℚ)) ∈ (TimeWindow.feed ⟨2, []⟩ [(10, 0), (1, 0), (5, 0)]).data ∧
    ¬ ((5 : ℚ) - 2 ≤ (1 : ℚ)) := by
  constructor
  · norm_num [TimeWindow.feed, TimeWindow.add, TimeWindow.cleanup,
      List.foldl_cons, List.foldl_nil, List.dropWhile]
  · norm_num

/-- Round half to even never exceeds its argument by more than one
half. -/
theorem roundHalfEven_le (q : ℚ) : (roundHalfEven q : ℚ) ≤ q + 1/2 := by
  have h1 := Int.floor_le q
  have h2 := Int.lt_floor_add_one q
  unfold roundHalfEven
  split_ifs with ha hb hc <;> push_cast <;> linarith

/-- Round half to even never undershoots its argument by more than one
half. -/
theorem le_roundHalfEven (q : ℚ) : q - 1/2 ≤ (roundHalfEven q : ℚ) := by
  have h1 := Int.floor_le q
  have h2 := Int.lt_floor_add_one q
  unfold roundHalfEven
  split_ifs with ha hb hc <;> push_cast <;> linarith

/-- Rounding to two decimals keeps a value of [0, 100] inside
[0, 100]. -/
theorem round2_bounds {q : ℚ} (h0 : 0 ≤ q) (h1 : q ≤ 100) :
    0 ≤ round2 q ∧ round2 q ≤ 100 := by
  have hle := roundHalfEven_le (q * 100)
  have hge := le_roundHalfEven (q * 100)
  have hz0 : (0 : ℤ) ≤ roundHalfEven (q * 100) := by
    have hq : (-1 : ℚ) < (roundHalfEven (q * 100) : ℚ) := by linarith
    have hiq : (-1 : ℤ) < roundHalfEven (q * 100) := by exact_mod_cast hq
    omega
  have hz1 : roundHalfEven (q * 100) ≤ 10000 := by
    have hq : (roundHalfEven (q * 100) : ℚ) < 10001 := by linarith
    have hiq : roundHalfEven (q * 100) < 10001 := by exact_mod_cast hq
    omega
  constructor
  · have hc : (0 : ℚ) ≤ (roundHalfEven (q * 100) : ℚ) := by exact_mod_cast hz0
    exact div_nonneg hc (by norm_num)
  · rw [round2, div_le_iff₀ (by norm_num : (0 : ℚ) < 100)]
    have hc : (roundHalfEven (q * 100) : ℚ) ≤ 10000 := by exact_mod_cast hz1
    linarith

/-- The speed-loss factor always lies in [0, 100]. -/
theorem calculate_speed_loss_bounds (history : List TelemetryData) :
    0 ≤ calculate_speed_loss history ∧ calculate_speed_loss history ≤ 100 := by
  rw [calculate_speed_loss_eq]
  split_ifs
  · exact ⟨le_refl 0, by norm_num⟩
  · exact ⟨le_refl 0, by norm_num⟩
  · exact ⟨le_max_left _ _, max_le (by norm_num) (min_le_left _ _)⟩

/-- The brake-degradation factor always lies in [0, 100]. -/
theorem calculate_brake_degradation_bounds (data : TelemetryData) :
    0 ≤ calculate_brake_degradation data ∧ calculate_brake_degradation data ≤ 100 :=
  ⟨le_max_left _ _, max_le (by norm_num) (min_le_left _ _)⟩

/-- The anomaly factor always lies in [0, 100]. -/
theorem anomaly_score_of_bounds (anomalies : List AnomalyEvent) :
    0 ≤ anomaly_score_of anomalies ∧ anomaly_score_of anomalies ≤ 100 :=
  ⟨le_min (by positivity) (by norm_num), min_le_right _ _⟩

/-- Claim C7: whenever the record satisfies the data-model invariant
that tire wear lies in [0, 100], the reported composite score lies in
[0, 100], for every scorer state and every event list. -/
theorem composite_score_in_range (scorer : PitStopStrategyCalculator)
    (data : TelemetryData) (anomalies : List AnomalyEvent)
    (h0 : 0 ≤ data.tire_wear_percent) (h1 : data.tire_wear_percent ≤ 100) :
    0 ≤ ((scorer.calculate_score data anomalies).2).score ∧
    ((scorer.calculate_score data anomalies).2).score ≤ 100 := by
  have hsl := calculate_speed_loss_bounds
    (dequeAppend max_history ((dictFind scorer.history data.car_id).getD []) data)
  have hbd := calculate_brake_degradation_bounds data
  have han := anomaly_score_of_bounds anomalies
  have hscore : ((scorer.calculate_score data anomalies).2).score =
      round2 (data.tire_wear_percent * 0.40 +
        calculate_speed_loss
          (dequeAppend max_history ((dictFind scorer.history data.car_id).getD []) data) * 0.30 +
        calculate_brake_degradation data * 0.20 +
        anomaly_score_of anomalies * 0.10) := rfl
  rw [hscore]
  exact round2_bounds
    (by nlinarith [hsl.1, hsl.2, hbd.1, hbd.2, han.1, han.2])
    (by nlinarith [hsl.1, hsl.2, hbd.1, hbd.2, han.1, han.2])

/-- Witness for C7 at a concrete input: the nominal record with tire
wear 50 from a fresh scorer state. -/
theorem composite_score_in_range_witness :
    (0 ≤ baseRecord.tire_wear_percent ∧ baseRecord.tire_wear_percent ≤ 100) ∧
    (0 ≤ ((PitStopStrategyCalculator.init.calculate_score baseRecord []).2).score ∧
      ((PitStopStrategyCalculator.init.calculate_score baseRecord []).2).score ≤ 100) :=
  ⟨⟨by norm_num [baseRecord], by norm_num [baseRecord]⟩,
   composite_score_in_range PitStopStrategyCalculator.init baseRecord []
     (by norm_num [baseRecord]) (by norm_num [baseRecord])⟩

/-- Claim C4, amended: the urgency tier is decided by the fixed
thresholds 90 / 75 / 50 applied to the unrounded weighted total (the
source tests the total before rounding it for the reported score), with
exact boundaries, and each tier carries its verbatim recommendation
string. For a total whose rounded value crosses a boundary, the tier
follows the unrounded total, not the reported rounded score. -/
theorem urgency_tiers_amended (scorer : PitStopStrategyCalculator) (data : TelemetryData)
    (anomalies : List AnomalyEvent) (T : ℚ)
    (hT : T = total_score_of (hist_of scorer data) data anomalies) :
    ((scorer.calculate_score data anomalies).2.urgency = "critical" ↔ 90 ≤ T) ∧
    ((scorer.calculate_score data anomalies).2.urgency = "high" ↔ 75 ≤ T ∧ T < 90) ∧
    ((scorer.calculate_score data anomalies).2.urgency = "medium" ↔ 50 ≤ T ∧ T < 75) ∧
    ((scorer.calculate_score data anomalies).2.urgency = "low" ↔ T < 50) ∧
    ((scorer.calculate_score data anomalies).2.urgency = "critical" →
      (scorer.calculate_score data anomalies).2.recommendation =
        "PIT-STOP IMMÉDIAT REQUIS!") ∧
    ((scorer.calculate_score data anomalies).2.urgency = "high" →
      (scorer.calculate_score data anomalies).2.recommendation =
        "Pit-stop fortement recommandé au prochain tour") ∧
    ((scorer.calculate_score data anomalies).2.urgency = "medium" →
      (scorer.calculate_score data anomalies).2.recommendation =
        "Pit-stop recommandé dans les 3-5 prochains tours") ∧
    ((scorer.calculate_score data anomalies).2.urgency = "low" →
      (scorer.calculate_score data anomalies).2.recommendation =
        "Continuer, surveillance normale") := by
  have hmaster : ((scorer.calculate_score data anomalies).2.urgency,
      (scorer.calculate_score data anomalies).2.recommendation) =
      if 90 ≤ total_score_of (hist_of scorer data) data anomalies then
        ("critical", "PIT-STOP IMMÉDIAT REQUIS!")
      else if 75 ≤ total_score_of (hist_of scorer data) data anomalies then
        ("high", "Pit-stop fortement recommandé au prochain tour")
      else if 50 ≤ total_score_of (hist_of scorer data) data anomalies then
        ("medium", "Pit-stop recommandé dans les 3-5 prochains tours")
      else ("low", "Continuer, surveillance normale") := rfl
  rw [← hT] at hmaster
  rcases le_or_lt 90 T with h90 | h90
  · rw [if_pos h90] at hmaster
    have hu : (scorer.calculate_score data anomalies).2.urgency = "critical" :=
      congrArg Prod.fst hmaster
    have hr : (scorer.calculate_score data anomalies).2.recommendation =
        "PIT-STOP IMMÉDIAT REQUIS!" := congrArg Prod.snd hmaster
    refine ⟨iff_of_true hu h90,
      iff_of_false (by rw [hu]; decide) (fun hand => absurd hand.2 (not_lt.mpr h90)),
      iff_of_false (by rw [hu]; decide) (fun hand => absurd hand.2 (not_lt.mpr (by linarith))),
      iff_of_false (by rw [hu]; decide) (not_lt.mpr (by linarith)),
      fun _ => hr,
      fun hx => by rw [hu] at hx; exact absurd hx (by decide),
      fun hx => by rw [hu] at hx; exact absurd hx (by decide),
      fun hx => by rw [hu] at hx; exact absurd hx (by decide)⟩
  · rw [if_neg (not_le.mpr h90)] at hmaster
    rcases le_or_lt 75 T with h75 | h75
    · rw [if_pos h75] at hmaster
      have hu : (scorer.calculate_score data anomalies).2.urgency = "high" :=
        congrArg Prod.fst hmaster
      have hr : (scorer.calculate_score data anomalies).2.recommendation =
          "Pit-stop fortement recommandé au prochain tour" := congrArg Prod.snd hmaster
      refine ⟨iff_of_false (by rw [hu]; decide) (fun hge => absurd hge (not_le.mpr h90)),
        iff_of_true hu ⟨h75, h90⟩,
        iff_of_false (by rw [hu]; decide) (fun hand => absurd hand.2 (not_lt.mpr h75)),
        iff_of_false (by rw [hu]; decide) (not_lt.mpr (by linarith)),
        fun hx => by rw [hu] at hx; exact absurd hx (by decide),
        fun _ => hr,
        fun hx => by rw [hu] at hx; exact absurd hx (by decide),
        fun hx => by rw [hu] at hx; exact absurd hx (by decide)⟩
    · rw [if_neg (not_le.mpr h75)] at hmaster
      rcases le_or_lt 50 T with h50 | h50
      · rw [if_pos h50] at hmaster
        have hu : (scorer.calculate_score data anomalies).2.urgency = "medium" :=
          congrArg Prod.fst hmaster
        have hr : (scorer.calculate_score data anomalies).2.recommendation =
            "Pit-stop recommandé dans les 3-5 prochains tours" := congrArg Prod.snd hmaster
        refine ⟨iff_of_false (by rw [hu]; decide) (fun hge => absurd hge (not_le.mpr (by linarith))),
          iff_of_false (by rw [hu]; decide) (fun hand => absurd hand.1 (not_le.mpr h75)),
          iff_of_true hu ⟨h50, h75⟩,
          iff_of_false (by rw [hu]; decide) (not_lt.mpr h50),
          fun hx => by rw [hu] at hx; exact absurd hx (by decide),
          fun hx => by rw [hu] at hx; exact absurd hx (by decide),
          fun _ => hr,
          fun hx => by rw [hu] at hx; exact absurd hx (by decide)⟩
      · rw [if_neg (not_le.mpr h50)] at hmaster
        have hu : (scorer.calculate_score data anomalies).2.urgency = "low" :=
          congrArg Prod.fst hmaster
        have hr : (scorer.calculate_score data anomalies).2.recommendation =
            "Continuer, surveillance normale" := congrArg Prod.snd hmaster
        refine ⟨iff_of_false (by rw [hu]; decide) (fun hge => absurd hge (not_le.mpr (by linarith))),
          iff_of_false (by rw [hu]; decide) (fun hand => absurd hand.1 (not_le.mpr (by linarith))),
          iff_of_false (by rw [hu]; decide) (fun hand => absurd hand.1 (not_le.mpr h50)),
          iff_of_true hu h50,
          fun hx => by rw [hu] at hx; exact absurd hx (by decide),
          fun hx => by rw [hu] at hx; exact absurd hx (by decide),
          fun hx => by rw [hu] at hx; exact absurd hx (by decide),
          fun _ => hr⟩

/-- Claim C4 as stated is false at this input: the unrounded total is
89.996, so the reported composite score is exactly 90.00 after rounding
while the urgency tier is high, contradicting that a score of exactly
90.00 is critical. -/
theorem urgency_boundary_counterexample :
    ((c4_scorer.calculate_score c4_record c4_events).2.score = 90) ∧
    ((c4_scorer.calculate_score c4_record c4_events).2.urgency = "high") := by
  have htotal : total_score_of (hist_of c4_scorer c4_record) c4_record c4_events = 89.996 := by
    norm_num [total_score_of, hist_of, dictFind, dequeAppend, max_history, c4_scorer,
      c4_record, c4_history, c4_events, baseRecord, calculate_speed_loss_eq, early_average,
      recent_average, calculate_brake_degradation, anomaly_score_of, min_def, max_def]
  constructor
  · have hsc : (c4_scorer.calculate_score c4_record c4_events).2.score =
        round2 (total_score_of (hist_of c4_scorer c4_record) c4_record c4_events) := rfl
    rw [hsc, htotal]
    norm_num [round2, roundHalfEven]
  · have hpair : ((c4_scorer.calculate_score c4_record c4_events).2.urgency,
        (c4_scorer.calculate_score c4_record c4_events).2.recommendation) =
        if 90 ≤ total_score_of (hist_of c4_scorer c4_record) c4_record c4_events then
          ("critical", "PIT-STOP IMMÉDIAT REQUIS!")
        else if 75 ≤ total_score_of (hist_of c4_scorer c4_record) c4_record c4_events then
          ("high", "Pit-stop fortement recommandé au prochain tour")
        else if 50 ≤ total_score_of (hist_of c4_scorer c4_record) c4_record c4_events then
          ("medium", "Pit-stop recommandé dans les 3-5 prochains tours")
        else ("low", "Continuer, surveillance normale") := rfl
    rw [htotal, if_neg (by norm_num), if_pos (by norm_num)] at hpair
    exact congrArg Prod.fst hpair

/-- Witness for the amended C4 at a concrete input whose unrounded
total is 100: the tier is critical with its verbatim string. -/
theorem urgency_tiers_witness :
    ((100 : ℚ) = total_score_of (hist_of c4_scorer c4crit_record) c4crit_record c4_events) ∧
    ((c4_scorer.calculate_score c4crit_record c4_events).2.urgency = "critical" ∧
      (c4_scorer.calculate_score c4crit_record c4_events).2.recommendation =
        "PIT-STOP IMMÉDIAT REQUIS!") := by
  have hT : (100 : ℚ) =
      total_score_of (hist_of c4_scorer c4crit_record) c4crit_record c4_events := by
    norm_num [total_score_of, hist_of, dictFind, dequeAppend, max_history, c4_scorer,
      c4crit_record, c4_history, c4_events, baseRecord, calculate_speed_loss_eq,
      early_average, recent_average, calculate_brake_degradation, anomaly_score_of,
      min_def, max_def]
  have H := urgency_tiers_amended c4_scorer c4crit_record c4_events 100 hT
  have hu : (c4_scorer.calculate_score c4crit_record c4_events).2.urgency = "critical" :=
    H.1.mpr (by norm_num)
  exact ⟨hT, hu, H.2.2.2.2.1 hu⟩

/-- Looking up a key right after inserting it yields the inserted
value. -/
theorem dictFind_insert {α : Type} (m : List (String × α)) (k : String) (v : α) :
    dictFind (dictInsert m k v) k = some v := by
  induction m with
  | nil => simp [dictFind, dictInsert]
  | cons p rest ih =>
    obtain ⟨k0, v0⟩ := p
    by_cases hk : k0 = k
    · simp [dictInsert, dictFind, hk]
    · simp only [dictInsert, if_neg hk, dictFind]
      exact ih

/-- A successful lookup witnesses membership. -/
theorem dictFind_mem {α : Type} {m : List (String × α)} {k : String} {v : α}
    (h : dictFind m k = some v) : (k, v) ∈ m := by
  induction m with
  | nil => simp [dictFind] at h
  | cons p rest ih =>
    obtain ⟨k0, v0⟩ := p
    by_cases hk : k0 = k
    · simp [dictFind, hk] at h
      subst hk
      subst h
      exact List.mem_cons_self _ _
    · simp only [dictFind, if_neg hk] at h
      exact List.mem_cons_of_mem _ (ih h)

/-- Claim C5, amended: on every detect call that emits at least one
event, the active list of the car of the record is pruned anchored at the
record timestamp: afterwards it only holds events strictly newer than
that timestamp minus 60 seconds. (Calls emitting no event leave the
active lists untouched, so stale events can survive them; see the
counterexample.) -/
theorem active_list_pruning_amended (st : AnomalyDetector) (data : TelemetryData)
    (h : (st.detect data).2 ≠ []) :
    ∀ e ∈ (dictFind (st.detect data).1.active_anomalies data.car_id).getD [],
      data.timestamp - 60 < e.timestamp := by
  intro e he
  simp only [AnomalyDetector.detect, detect_core] at h he
  split at he
  · rename_i hemp
    rw [List.isEmpty_iff] at hemp
    exact absurd hemp h
  · rw [dictFind_insert] at he
    simp only [Option.getD_some] at he
    have := (List.mem_filter.mp he).2
    exact of_decide_eq_true this

/-- Witness for the amended C5 at a concrete input: the third hot
record emits an event, and right after that call the active list only
holds events newer than 2 - 60. -/
theorem active_list_pruning_witness :
    ((c5_state2.detect (hotRecord 2)).2 ≠ []) ∧
    ∀ e ∈ (dictFind (c5_state2.detect (hotRecord 2)).1.active_anomalies
      (hotRecord 2).car_id).getD [], (hotRecord 2).timestamp - 60 < e.timestamp := by
  have h : (c5_state2.detect (hotRecord 2)).2 ≠ [] := by
    norm_num [c5_state2, hotRecord, baseRecord, AnomalyDetector.init,
      AnomalyDetector.detect, detect_core, AnomalyDetector.get_or_create_windows,
      dictFind, dictInsert, initial_windows, check_position, TimeWindow.add,
      TimeWindow.cleanup, TimeWindow.all_above_threshold, TimeWindow.get_duration,
      BRAKE_TEMP_CRITICAL, TIRE_TEMP_CRITICAL, DETECTION_WINDOW, List.dropWhile,
      List.filter]
  exact ⟨h, active_list_pruning_amended c5_state2 (hotRecord 2) h⟩

/-- Claim C5 as stated is false at this input: the call at t = 100
emits no event, so the active list is not pruned and still holds the
event of timestamp 2, which is 98 seconds old; get_active_count still
reports it. -/
theorem active_list_pruning_counterexample :
    c5_final.2 = [] ∧
    ((dictFind c5_final.1.active_anomalies "SF-23").getD []).map
      AnomalyEvent.timestamp = [2] ∧
    c5_final.1.get_active_count = 1 ∧
    ((2 : ℚ) ≤ 100 - 60) := by
  refine ⟨?_, ?_, ?_, by norm_num⟩ <;>
    norm_num [c5_final, c5_state3, c5_state2, hotRecord, coolRecord, baseRecord,
      AnomalyDetector.init, AnomalyDetector.detect, detect_core,
      AnomalyDetector.get_or_create_windows, AnomalyDetector.get_active_count,
      dictFind, dictInsert, initial_windows, check_position, TimeWindow.add,
      TimeWindow.cleanup, TimeWindow.all_above_threshold, TimeWindow.get_duration,
      BRAKE_TEMP_CRITICAL, TIRE_TEMP_CRITICAL, DETECTION_WINDOW, List.dropWhile,
      List.filter]

/-- An element whose test is false survives a dropWhile that reaches
it as the last element. -/
theorem mem_dropWhile_append_last {α : Type} (p : α → Bool) (l : List α) (a : α)
    (ha : p a = false) : a ∈ (l ++ [a]).dropWhile p := by
  induction l with
  | nil => simp [List.dropWhile, ha]
  | cons x xs ih =>
    rw [List.cons_append, List.dropWhile_cons]
    split
    · exact ih
    · simp

/-- With a nonnegative window duration, the sample just added is always
retained: the cleanup cutoff cannot pass the newest timestamp. -/
theorem mem_add_self {w : TimeWindow} (hd : 0 ≤ w.duration) (t v : ℚ) :
    (t, v) ∈ (w.add t v).data := by
  have hp : (fun s : ℚ × ℚ => decide (s.1 < t - w.duration)) (t, v) = false := by
    simp only [decide_eq_false_iff_not]
    simp only [not_lt]
    linarith
  simpa [TimeWindow.add, TimeWindow.cleanup] using
    mem_dropWhile_append_last _ w.data (t, v) hp

/-- Every event emitted by one position check is critical, typed by its
family and position, records the threshold it crossed, reports a value
strictly above that threshold, and a sustained duration of at least the
detection window. -/
theorem check_position_events {w : TimeWindow} (hd : 0 ≤ w.duration)
    (car_id position : String) (timestamp temp threshold : ℚ) (label family : String) :
    ∀ e ∈ (check_position w car_id position timestamp temp threshold label family).2,
      e.severity = "critical" ∧ e.anomaly_type = family ++ position ∧
      e.threshold < e.value ∧ DETECTION_WINDOW ≤ e.duration_seconds := by
  intro e he
  simp only [check_position] at he
  split at he
  · rename_i hcond
    rw [Bool.and_eq_true] at hcond
    obtain ⟨h1, h2⟩ := hcond
    have hdur : DETECTION_WINDOW ≤ (w.add timestamp temp).get_duration :=
      of_decide_eq_true h2
    rcases List.mem_singleton.mp he with rfl
    refine ⟨rfl, rfl, ?_, hdur⟩
    have hmem := mem_add_self hd timestamp temp
    rw [TimeWindow.all_above_threshold, Bool.and_eq_true] at h1
    have hv := List.all_eq_true.mp h1.2 _ hmem
    exact of_decide_eq_true hv
  · simp at he

/-- One position check emits at most one event. -/
theorem check_position_length (w : TimeWindow) (car_id position : String)
    (timestamp temp threshold : ℚ) (label family : String) :
    (check_position w car_id position timestamp temp threshold label family).2.length ≤ 1 := by
  simp only [check_position]
  split <;> simp

/-- Windows taken from a well-formed map through the lazy-creation
step have nonnegative durations. -/
theorem lookup_windows_wf (m : List (String × PositionWindows)) (car : String)
    (hm : ∀ p ∈ m, 0 ≤ p.2.fl.duration ∧ 0 ≤ p.2.fr.duration ∧
      0 ≤ p.2.rl.duration ∧ 0 ≤ p.2.rr.duration) :
    0 ≤ ((dictFind (if (dictFind m car).isSome then m
        else dictInsert m car initial_windows) car).getD initial_windows).fl.duration ∧
    0 ≤ ((dictFind (if (dictFind m car).isSome then m
        else dictInsert m car initial_windows) car).getD initial_windows).fr.duration ∧
    0 ≤ ((dictFind (if (dictFind m car).isSome then m
        else dictInsert m car initial_windows) car).getD initial_windows).rl.duration ∧
    0 ≤ ((dictFind (if (dictFind m car).isSome then m
        else dictInsert m car initial_windows) car).getD initial_windows).rr.duration := by
  cases hfind : dictFind m car with
  | some pw0 =>
    simpa [hfind] using hm _ (dictFind_mem hfind)
  | none =>
    norm_num [dictFind_insert, initial_windows, DETECTION_WINDOW]

/-- Shape of the eight concatenated position checks of one detect
call, for any eight windows of nonnegative duration. -/
theorem check8_shape {w1 w2 w3 w4 w5 w6 w7 w8 : TimeWindow} {car : String}
    {ts b1 b2 b3 b4 t1 t2 t3 t4 : ℚ}
    (h1 : 0 ≤ w1.duration) (h2 : 0 ≤ w2.duration) (h3 : 0 ≤ w3.duration)
    (h4 : 0 ≤ w4.duration) (h5 : 0 ≤ w5.duration) (h6 : 0 ≤ w6.duration)
    (h7 : 0 ≤ w7.duration) (h8 : 0 ≤ w8.duration) :
    ((check_position w1 car "fl" ts b1 BRAKE_TEMP_CRITICAL "Frein" "brake_overheat_").2 ++
     (check_position w2 car "fr" ts b2 BRAKE_TEMP_CRITICAL "Frein" "brake_overheat_").2 ++
     (check_position w3 car "rl" ts b3 BRAKE_TEMP_CRITICAL "Frein" "brake_overheat_").2 ++
     (check_position w4 car "rr" ts b4 BRAKE_TEMP_CRITICAL "Frein" "brake_overheat_").2 ++
     (check_position w5 car "fl" ts t1 TIRE_TEMP_CRITICAL "Pneu" "tire_overheat_").2 ++
     (check_position w6 car "fr" ts t2 TIRE_TEMP_CRITICAL "Pneu" "tire_overheat_").2 ++
     (check_position w7 car "rl" ts t3 TIRE_TEMP_CRITICAL "Pneu" "tire_overheat_").2 ++
     (check_position w8 car "rr" ts t4 TIRE_TEMP_CRITICAL "Pneu" "tire_overheat_").2).length ≤ 8 ∧
    ∀ e ∈ ((check_position w1 car "fl" ts b1 BRAKE_TEMP_CRITICAL "Frein" "brake_overheat_").2 ++
     (check_position w2 car "fr" ts b2 BRAKE_TEMP_CRITICAL "Frein" "brake_overheat_").2 ++
     (check_position w3 car "rl" ts b3 BRAKE_TEMP_CRITICAL "Frein" "brake_overheat_").2 ++
     (check_position w4 car "rr" ts b4 BRAKE_TEMP_CRITICAL "Frein" "brake_overheat_").2 ++
     (check_position w5 car "fl" ts t1 TIRE_TEMP_CRITICAL "Pneu" "tire_overheat_").2 ++
     (check_position w6 car "fr" ts t2 TIRE_TEMP_CRITICAL "Pneu" "tire_overheat_").2 ++
     (check_position w7 car "rl" ts t3 TIRE_TEMP_CRITICAL "Pneu" "tire_overheat_").2 ++
     (check_position w8 car "rr" ts t4 TIRE_TEMP_CRITICAL "Pneu" "tire_overheat_").2),
      e.severity = "critical" ∧
      e.anomaly_type ∈ ["brake_overheat_fl", "brake_overheat_fr", "brake_overheat_rl",
        "brake_overheat_rr", "tire_overheat_fl", "tire_overheat_fr", "tire_overheat_rl",
        "tire_overheat_rr"] ∧
      e.threshold < e.value ∧ (2 : ℚ) ≤ e.duration_seconds := by
  constructor
  · have l1 := check_position_length w1 car "fl" ts b1 BRAKE_TEMP_CRITICAL "Frein" "brake_overheat_"
    have l2 := check_position_length w2 car "fr" ts b2 BRAKE_TEMP_CRITICAL "Frein" "brake_overheat_"
    have l3 := check_position_length w3 car "rl" ts b3 BRAKE_TEMP_CRITICAL "Frein" "brake_overheat_"
    have l4 := check_position_length w4 car "rr" ts b4 BRAKE_TEMP_CRITICAL "Frein" "brake_overheat_"
    have l5 := check_position_length w5 car "fl" ts t1 TIRE_TEMP_CRITICAL "Pneu" "tire_overheat_"
    have l6 := check_position_length w6 car "fr" ts t2 TIRE_TEMP_CRITICAL "Pneu" "tire_overheat_"
    have l7 := check_position_length w7 car "rl" ts t3 TIRE_TEMP_CRITICAL "Pneu" "tire_overheat_"
    have l8 := check_position_length w8 car "rr" ts t4 TIRE_TEMP_CRITICAL "Pneu" "tire_overheat_"
    simp only [List.length_append]
    omega
  · intro e he
    simp only [List.mem_append] at he
    rcases he with (((((((he | he) | he) | he) | he) | he) | he) | he)
    · obtain ⟨hs, ht, hlt, hdur⟩ := check_position_events h1 car "fl" ts b1 _ _ _ e he
      exact ⟨hs, by rw [ht]; decide, hlt, by simpa [DETECTION_WINDOW] using hdur⟩
    · obtain ⟨hs, ht, hlt, hdur⟩ := check_position_events h2 car "fr" ts b2 _ _ _ e he
      exact ⟨hs, by rw [ht]; decide, hlt, by simpa [DETECTION_WINDOW] using hdur⟩
    · obtain ⟨hs, ht, hlt, hdur⟩ := check_position_events h3 car "rl" ts b3 _ _ _ e he
      exact ⟨hs, by rw [ht]; decide, hlt, by simpa [DETECTION_WINDOW] using hdur⟩
    · obtain ⟨hs, ht, hlt, hdur⟩ := check_position_events h4 car "rr" ts b4 _ _ _ e he
      exact ⟨hs, by rw [ht]; decide, hlt, by simpa [DETECTION_WINDOW] using hdur⟩
    · obtain ⟨hs, ht, hlt, hdur⟩ := check_position_events h5 car "fl" ts t1 _ _ _ e he
      exact ⟨hs, by rw [ht]; decide, hlt, by simpa [DETECTION_WINDOW] using hdur⟩
    · obtain ⟨hs, ht, hlt, hdur⟩ := check_position_events h6 car "fr" ts t2 _ _ _ e he
      exact ⟨hs, by rw [ht]; decide, hlt, by simpa [DETECTION_WINDOW] using hdur⟩
    · obtain ⟨hs, ht, hlt, hdur⟩ := check_position_events h7 car "rl" ts t3 _ _ _ e he
      exact ⟨hs, by rw [ht]; decide, hlt, by simpa [DETECTION_WINDOW] using hdur⟩
    · obtain ⟨hs, ht, hlt, hdur⟩ := check_position_events h8 car "rr" ts t4 _ _ _ e he
      exact ⟨hs, by rw [ht]; decide, hlt, by simpa [DETECTION_WINDOW] using hdur⟩

/-- Claim C10: from any well-formed detector state, every event
returned by detect is critical, typed brake_overheat or tire_overheat
over the four wheel positions (so at most 8 events per call), reports a
value strictly above its recorded threshold, and a sustained duration
of at least 2 seconds. -/
theorem anomaly_event_shape (st : AnomalyDetector) (data : TelemetryData)
    (hwf : st.WF) :
    (st.detect data).2.length ≤ 8 ∧
    ∀ e ∈ (st.detect data).2,
      e.severity = "critical" ∧
      e.anomaly_type ∈ ["brake_overheat_fl", "brake_overheat_fr", "brake_overheat_rl",
        "brake_overheat_rr", "tire_overheat_fl", "tire_overheat_fr", "tire_overheat_rl",
        "tire_overheat_rr"] ∧
      e.threshold < e.value ∧ (2 : ℚ) ≤ e.duration_seconds := by
  obtain ⟨hbrake, htire⟩ := hwf
  have hbw := lookup_windows_wf st.brake_windows data.car_id hbrake
  have htw := lookup_windows_wf st.tire_windows data.car_id htire
  simp only [AnomalyDetector.detect, detect_core, AnomalyDetector.get_or_create_windows]
  exact check8_shape hbw.1 hbw.2.1 hbw.2.2.1 hbw.2.2.2 htw.1 htw.2.1 htw.2.2.1 htw.2.2.2

/-- Witness for C10 at a concrete input: the fresh detector state is
well formed, and the theorem applies to it with the nominal record. -/
theorem anomaly_event_shape_witness :
    AnomalyDetector.init.WF ∧
    ((AnomalyDetector.init.detect baseRecord).2.length ≤ 8 ∧
      ∀ e ∈ (AnomalyDetector.init.detect baseRecord).2,
        e.severity = "critical" ∧
        e.anomaly_type ∈ ["brake_overheat_fl", "brake_overheat_fr", "brake_overheat_rl",
          "brake_overheat_rr", "tire_overheat_fl", "tire_overheat_fr", "tire_overheat_rl",
          "tire_overheat_rr"] ∧
        e.threshold < e.value ∧ (2 : ℚ) ≤ e.duration_seconds) := by
  have hwf : AnomalyDetector.init.WF := by
    constructor <;> simp [AnomalyDetector.init]
  exact ⟨hwf, anomaly_event_shape AnomalyDetector.init baseRecord hwf⟩

/-- Claim C8 as stated is false at this input: the record with a
mistyped speed_kmh (a string) is not well typed, yet the dataclass
constructor accepts it and the core is reached; the endpoint does not
answer 400 at the boundary. -/
theorem schema_validation_counterexample :
    well_typed mistyped_record = false ∧
    reaches_core mistyped_record = true ∧
    receive_telemetry mistyped_record = HttpReply.accepted := by decide

/-- Claim C8, amended: the boundary validates field names only. A
record missing a required field or carrying an unknown field raises
TypeError at dataclass construction, is answered with HTTP 400, and
never reaches the detector or scorer; any record whose field-name set
covers the required names and stays within the known names is handed to
the core, regardless of the types of its values. -/
theorem schema_boundary_amended (data : List (String × PyVal)) :
    ((∃ f ∈ required_fields, f ∉ data.map Prod.fst) ∨
      (∃ k ∈ data.map Prod.fst, k ∉ all_fields) →
      receive_telemetry data = HttpReply.badRequest ∧ reaches_core data = false) ∧
    ((∀ f ∈ required_fields, f ∈ data.map Prod.fst) ∧
      (∀ k ∈ data.map Prod.fst, k ∈ all_fields) →
      reaches_core data = true ∧ receive_telemetry data = HttpReply.accepted) := by
  have hiff : construct_ok data = true ↔
      (∀ f ∈ required_fields, f ∈ data.map Prod.fst) ∧
      (∀ k ∈ data.map Prod.fst, k ∈ all_fields) := by
    simp [construct_ok, List.all_eq_true, List.contains]
  constructor
  · intro h
    have hfalse : construct_ok data = false := by
      cases hconstr : construct_ok data
      · rfl
      · rcases h with ⟨f, hf, hnf⟩ | ⟨k, hk, hnk⟩
        · exact absurd ((hiff.mp hconstr).1 f hf) hnf
        · exact absurd ((hiff.mp hconstr).2 k hk) hnk
    constructor
    · simp [receive_telemetry, hfalse]
    · simp [reaches_core, hfalse]
  · intro h
    have hc : construct_ok data = true := hiff.mpr h
    exact ⟨by simp [reaches_core, hc], by simp [receive_telemetry, hc]⟩

/-- Witness for the amended C8 at a concrete input: the record missing
speed_kmh is answered with 400 and never reaches the core. -/
theorem schema_boundary_witness :
    (∃ f ∈ required_fields, f ∉ missing_record.map Prod.fst) ∧
    (receive_telemetry missing_record = HttpReply.badRequest ∧
      reaches_core missing_record = false) := by
  have hmiss : ∃ f ∈ required_fields, f ∉ missing_record.map Prod.fst :=
    ⟨"speed_kmh", by decide, by decide⟩
  exact ⟨hmiss, (schema_boundary_amended missing_record).1 (Or.inl hmiss)⟩

/-- First detect call of the debounce run: one sample per window spans
0 seconds, below the 2-second detection window, so no event regardless
of the temperatures. -/
theorem detect_step1 (t b1 b2 b3 b4 : ℚ) :
    AnomalyDetector.init.detect (debounce_record t b1 b2 b3 b4) =
      (c1_state1 t b1 b2 b3 b4, []) := by
  have h1 : ¬ (t < t - 2) := by linarith
  norm_num [debounce_record, baseRecord, AnomalyDetector.init, c1_state1,
    AnomalyDetector.detect, detect_core, AnomalyDetector.get_or_create_windows,
    dictFind, dictInsert, initial_windows, check_position, TimeWindow.add,
    TimeWindow.cleanup, TimeWindow.all_above_threshold, TimeWindow.get_duration,
    BRAKE_TEMP_CRITICAL, TIRE_TEMP_CRITICAL, DETECTION_WINDOW, List.dropWhile, h1]

/-- Second detect call: the windows span one second, still below the
2-second detection window, so again no event. -/
theorem detect_step2 (t b1 b2 b3 b4 : ℚ) :
    (c1_state1 t b1 b2 b3 b4).detect (debounce_record (t + 1) b1 b2 b3 b4) =
      (c1_state2 t b1 b2 b3 b4, []) := by
  have h2 : ¬ (t < t + 1 - 2) := by linarith
  have e1 : t + 1 - t = 1 := by ring
  norm_num [debounce_record, baseRecord, c1_state1, c1_state2,
    AnomalyDetector.detect, detect_core, AnomalyDetector.get_or_create_windows,
    dictFind, dictInsert, initial_windows, check_position, TimeWindow.add,
    TimeWindow.cleanup, TimeWindow.all_above_threshold, TimeWindow.get_duration,
    BRAKE_TEMP_CRITICAL, TIRE_TEMP_CRITICAL, DETECTION_WINDOW, List.dropWhile, h2, e1]

/-- Third detect call, front-left hot: the window now spans 2 seconds
with every sample above 950, and exactly the front-left brake event is
emitted. -/
theorem detect_step3_fl (t : ℚ) :
    ((c1_state2 t 960 400 400 400).detect
      (debounce_record (t + 2) 960 400 400 400)).2.map AnomalyEvent.anomaly_type =
      ["brake_overheat_fl"] := by
  have h3 : ¬ (t < t + 2 - 2) := by linarith
  have e2 : t + 2 - t = 2 := by ring
  norm_num [debounce_record, baseRecord, c1_state2,
    AnomalyDetector.detect, detect_core, AnomalyDetector.get_or_create_windows,
    dictFind, dictInsert, initial_windows, check_position, TimeWindow.add,
    TimeWindow.cleanup, TimeWindow.all_above_threshold, TimeWindow.get_duration,
    BRAKE_TEMP_CRITICAL, TIRE_TEMP_CRITICAL, DETECTION_WINDOW, List.dropWhile, h3, e2]
  decide

/-- Third detect call, front-right hot. -/
theorem detect_step3_fr (t : ℚ) :
    ((c1_state2 t 400 960 400 400).detect
      (debounce_record (t + 2) 400 960 400 400)).2.map AnomalyEvent.anomaly_type =
      ["brake_overheat_fr"] := by
  have h3 : ¬ (t < t + 2 - 2) := by linarith
  have e2 : t + 2 - t = 2 := by ring
  norm_num [debounce_record, baseRecord, c1_state2,
    AnomalyDetector.detect, detect_core, AnomalyDetector.get_or_create_windows,
    dictFind, dictInsert, initial_windows, check_position, TimeWindow.add,
    TimeWindow.cleanup, TimeWindow.all_above_threshold, TimeWindow.get_duration,
    BRAKE_TEMP_CRITICAL, TIRE_TEMP_CRITICAL, DETECTION_WINDOW, List.dropWhile, h3, e2]
  decide

/-- Third detect call, rear-left hot. -/
theorem detect_step3_rl (t : ℚ) :
    ((c1_state2 t 400 400 960 400).detect
      (debounce_record (t + 2) 400 400 960 400)).2.map AnomalyEvent.anomaly_type =
      ["brake_overheat_rl"] := by
  have h3 : ¬ (t < t + 2 - 2) := by linarith
  have e2 : t + 2 - t = 2 := by ring
  norm_num [debounce_record, baseRecord, c1_state2,
    AnomalyDetector.detect, detect_core, AnomalyDetector.get_or_create_windows,
    dictFind, dictInsert, initial_windows, check_position, TimeWindow.add,
    TimeWindow.cleanup, TimeWindow.all_above_threshold, TimeWindow.get_duration,
    BRAKE_TEMP_CRITICAL, TIRE_TEMP_CRITICAL, DETECTION_WINDOW, List.dropWhile, h3, e2]
  decide

/-- Third detect call, rear-right hot. -/
theorem detect_step3_rr (t : ℚ) :
    ((c1_state2 t 400 400 400 960).detect
      (debounce_record (t + 2) 400 400 400 960)).2.map AnomalyEvent.anomaly_type =
      ["brake_overheat_rr"] := by
  have h3 : ¬ (t < t + 2 - 2) := by linarith
  have e2 : t + 2 - t = 2 := by ring
  norm_num [debounce_record, baseRecord, c1_state2,
    AnomalyDetector.detect, detect_core, AnomalyDetector.get_or_create_windows,
    dictFind, dictInsert, initial_windows, check_position, TimeWindow.add,
    TimeWindow.cleanup, TimeWindow.all_above_threshold, TimeWindow.get_duration,
    BRAKE_TEMP_CRITICAL, TIRE_TEMP_CRITICAL, DETECTION_WINDOW, List.dropWhile, h3, e2]
  decide

/-- Claim C1: starting from a fresh detector, three consecutive records
for one car at timestamps t, t + 1, t + 2 whose brake temperature at
one wheel is 960 (all other monitored temperatures below threshold)
produce no event on the first two detect calls and exactly one
brake_overheat event for that wheel on the third, for each of the four
wheels. -/
theorem brake_overheat_debounce (t : ℚ) :
    ((debounce_run (debounce_record t 960 400 400 400)
        (debounce_record (t + 1) 960 400 400 400)
        (debounce_record (t + 2) 960 400 400 400)).1 = [] ∧
      (debounce_run (debounce_record t 960 400 400 400)
        (debounce_record (t + 1) 960 400 400 400)
        (debounce_record (t + 2) 960 400 400 400)).2.1 = [] ∧
      (debounce_run (debounce_record t 960 400 400 400)
        (debounce_record (t + 1) 960 400 400 400)
        (debounce_record (t + 2) 960 400 400 400)).2.2.map
          AnomalyEvent.anomaly_type = ["brake_overheat_fl"]) ∧
    ((debounce_run (debounce_record t 400 960 400 400)
        (debounce_record (t + 1) 400 960 400 400)
        (debounce_record (t + 2) 400 960 400 400)).1 = [] ∧
      (debounce_run (debounce_record t 400 960 400 400)
        (debounce_record (t + 1) 400 960 400 400)
        (debounce_record (t + 2) 400 960 400 400)).2.1 = [] ∧
      (debounce_run (debounce_record t 400 960 400 400)
        (debounce_record (t + 1) 400 960 400 400)
        (debounce_record (t + 2) 400 960 400 400)).2.2.map
          AnomalyEvent.anomaly_type = ["brake_overheat_fr"]) ∧
    ((debounce_run (debounce_record t 400 400 960 400)
        (debounce_record (t + 1) 400 400 960 400)
        (debounce_record (t + 2) 400 400 960 400)).1 = [] ∧
      (debounce_run (debounce_record t 400 400 960 400)
        (debounce_record (t + 1) 400 400 960 400)
        (debounce_record (t + 2) 400 400 960 400)).2.1 = [] ∧
      (debounce_run (debounce_record t 400 400 960 400)
        (debounce_record (t + 1) 400 400 960 400)
        (debounce_record (t + 2) 400 400 960 400)).2.2.map
          AnomalyEvent.anomaly_type = ["brake_overheat_rl"]) ∧
    ((debounce_run (debounce_record t 400 400 400 960)
        (debounce_record (t + 1) 400 400 400 960)
        (debounce_record (t + 2) 400 400 400 960)).1 = [] ∧
      (debounce_run (debounce_record t 400 400 400 960)
        (debounce_record (t + 1) 400 400 400 960)
        (debounce_record (t + 2) 400 400 400 960)).2.1 = [] ∧
      (debounce_run (debounce_record t 400 400 400 960)
        (debounce_record (t + 1) 400 400 400 960)
        (debounce_record (t + 2) 400 400 400 960)).2.2.map
          AnomalyEvent.anomaly_type = ["brake_overheat_rr"]) := by
  refine ⟨⟨?_, ?_, ?_⟩, ⟨?_, ?_, ?_⟩, ⟨?_, ?_, ?_⟩, ⟨?_, ?_, ?_⟩⟩ <;>
    simp only [debounce_run, detect_step1, detect_step2, detect_step3_fl,
      detect_step3_fr, detect_step3_rl, detect_step3_rr]

/-- Membership after a dict insert: the inserted pair or an original
entry. -/
theorem mem_dictInsert {α : Type} {m : List (String × α)} {k : String} {v : α}
    {p : String × α} (h : p ∈ dictInsert m k v) : p = (k, v) ∨ p ∈ m := by
  induction m with
  | nil => simpa [dictInsert] using h
  | cons q rest ih =>
    obtain ⟨k0, v0⟩ := q
    by_cases hk : k0 = k
    · simp only [dictInsert, if_pos hk] at h
      rcases List.mem_cons.mp h with h | h
      · exact Or.inl h
      · exact Or.inr (List.mem_cons_of_mem _ h)
    · simp only [dictInsert, if_neg hk] at h
      rcases List.mem_cons.mp h with h | h
      · exact Or.inr (h ▸ List.mem_cons_self _ _)
      · rcases ih h with h | h
        · exact Or.inl h
        · exact Or.inr (List.mem_cons_of_mem _ h)

/-- One position check keeps the duration of its window. -/
theorem check_position_duration (w : TimeWindow) (car_id position : String)
    (timestamp temp threshold : ℚ) (label family : String) :
    (check_position w car_id position timestamp temp threshold label family).1.duration =
      w.duration := by
  simp only [check_position]
  split <;> rfl

/-- Writing back windows of nonnegative duration through the
lazy-creation step keeps every stored duration nonnegative. -/
theorem dictInsert_windows_wf {m : List (String × PositionWindows)} {car : String}
    (hm : ∀ p ∈ m, 0 ≤ p.2.fl.duration ∧ 0 ≤ p.2.fr.duration ∧
      0 ≤ p.2.rl.duration ∧ 0 ≤ p.2.rr.duration)
    {pw : PositionWindows}
    (hpw : 0 ≤ pw.fl.duration ∧ 0 ≤ pw.fr.duration ∧
      0 ≤ pw.rl.duration ∧ 0 ≤ pw.rr.duration) :
    ∀ p ∈ dictInsert (if (dictFind m car).isSome then m
        else dictInsert m car initial_windows) car pw,
      0 ≤ p.2.fl.duration ∧ 0 ≤ p.2.fr.duration ∧
      0 ≤ p.2.rl.duration ∧ 0 ≤ p.2.rr.duration := by
  intro p hp
  rcases mem_dictInsert hp with rfl | hp2
  · exact hpw
  · cases hc : (dictFind m car).isSome
    · simp only [hc, Bool.false_eq_true, if_false] at hp2
      rcases mem_dictInsert hp2 with rfl | hp3
      · norm_num [initial_windows, DETECTION_WINDOW]
      · exact hm _ hp3
    · simp only [hc, if_true] at hp2
      exact hm _ hp2

/-- The well-formedness hypothesis of the event-shape theorem holds for
every reachable detector state: it holds for the fresh detector and is
preserved by every detect call, since windows are only ever created
with the 2-second detection duration and add keeps durations. -/
theorem detect_preserves_WF (st : AnomalyDetector) (data : TelemetryData)
    (hwf : st.WF) : (st.detect data).1.WF := by
  obtain ⟨hb, ht⟩ := hwf
  have hbw := lookup_windows_wf st.brake_windows data.car_id hb
  have htw := lookup_windows_wf st.tire_windows data.car_id ht
  constructor
  · simp only [AnomalyDetector.detect, detect_core,
      AnomalyDetector.get_or_create_windows]
    refine dictInsert_windows_wf hb ?_
    refine ⟨?_, ?_, ?_, ?_⟩ <;> simp only [check_position_duration]
    · exact hbw.1
    · exact hbw.2.1
    · exact hbw.2.2.1
    · exact hbw.2.2.2
  · simp only [AnomalyDetector.detect, detect_core,
      AnomalyDetector.get_or_create_windows]
    refine dictInsert_windows_wf ht ?_
    refine ⟨?_, ?_, ?_, ?_⟩ <;> simp only [check_position_duration]
    · exact htw.1
    · exact htw.2.1
    · exact htw.2.2.1
    · exact htw.2.2.2

/-- The fresh detector is well formed. -/
theorem init_WF : AnomalyDetector.init.WF := by
  constructor <;> simp [AnomalyDetector.init]

end F1
